import Mathlib

/-!
Verification development for the redis-om-python object-mapping and query
layer.  The query-engine implementation (expression nodes, normalizer,
compiler, schema builder, executor) is not part of the sources available
here; only its test suite and the connection helper are.  Definitions for
those components are therefore modelled from the specification, anchored at
every point to the concrete inputs and expected outputs recorded in the
test files.  The connection helper in aredis_om/connections.py is embedded
directly from its source.
-/

namespace RedisOM

/-! ## Python value and keyword-argument model (src/aredis_om/connections.py) -/

/-- A Python value as far as the connection helper needs one. -/
inductive PyVal where
  | bool (b : Bool)
  | str (s : String)
  | int (n : Int)
  deriving DecidableEq, Repr

/-- Keyword arguments: an ordered association list, first binding wins. -/
abbrev Kwargs := List (String × PyVal)

/-- Lookup of a key in keyword arguments, as Python `kwargs[k]` / `k in kwargs`. -/
def dictGet (l : Kwargs) (k : String) : Option PyVal :=
  match l with
  | [] => none
  | (k0, v0) :: rest => if k0 = k then some v0 else dictGet rest k

/-- Removal of every binding of a key, as Python `kwargs.pop(k, ...)` leaves the dict. -/
def dictRemove (l : Kwargs) (k : String) : Kwargs :=
  match l with
  | [] => []
  | (k0, v0) :: rest => if k0 = k then dictRemove rest k else (k0, v0) :: dictRemove rest k

/-- Python truthiness for the values the connection helper branches on. -/
def pyTruthy : PyVal → Bool
  | .bool b => b
  | .str s => s ≠ ""
  | .int n => n ≠ 0

/-- Truthiness of an optional value, with `None` falsy. -/
def pyTruthyOpt : Option PyVal → Bool
  | none => false
  | some v => pyTruthy v

/-- The client object returned by the connection helper: which constructor ran
and the keyword arguments that were forwarded to it. -/
structure RedisClient where
  isCluster : Bool
  viaUrl : Bool
  initKwargs : Kwargs
  deriving DecidableEq, Repr

/-- Embedding of `get_redis_connection` from src/aredis_om/connections.py:
if `decode_responses` is absent it is set to `True`; then `cluster` (default
false) and `url` (default: the `REDIS_OM_URL` environment value) are popped,
and the remaining kwargs are forwarded to the chosen constructor. -/
def get_redis_connection (kwargs : Kwargs) (envUrl : Option PyVal) : RedisClient :=
  let kwargs1 : Kwargs :=
    if (dictGet kwargs ("decode_responses")).isSome then kwargs
    else kwargs ++ [(("decode_responses"), PyVal.bool true)]
  let cluster : Bool := pyTruthyOpt (dictGet kwargs1 ("cluster"))
  let kwargs2 : Kwargs := dictRemove kwargs1 ("cluster")
  let url : Option PyVal :=
    match dictGet kwargs2 ("url") with
    | some v => some v
    | none => envUrl
  let kwargs3 : Kwargs := dictRemove kwargs2 ("url")
  { isCluster := cluster, viaUrl := pyTruthyOpt url, initKwargs := kwargs3 }

theorem dictGet_append_of_none {l : Kwargs} {k : String} (h : dictGet l k = none)
    (v : PyVal) : dictGet (l ++ [(k, v)]) k = some v := by
  induction l with
  | nil => simp [dictGet]
  | cons p rest ih =>
    rcases p with ⟨k0, v0⟩
    rw [dictGet] at h
    rw [List.cons_append, dictGet]
    by_cases hk : k0 = k
    · simp [hk] at h
    · simp only [hk, if_false] at h ⊢
      exact ih h

theorem dictGet_remove_ne {l : Kwargs} {k k0 : String} (h : k0 ≠ k) :
    dictGet (dictRemove l k0) k = dictGet l k := by
  induction l with
  | nil => rfl
  | cons p rest ih =>
    rcases p with ⟨k1, v1⟩
    rw [dictRemove, dictGet]
    by_cases hp : k1 = k0
    · have hpk : k1 ≠ k := by
        rw [hp]; exact h
      rw [if_pos hp, if_neg hpk]
      exact ih
    · rw [if_neg hp, dictGet]
      by_cases hpk : k1 = k
      · rw [if_pos hpk, if_pos hpk]
      · rw [if_neg hpk, if_neg hpk]
        exact ih

theorem dictGet_append_of_some {l : Kwargs} {k : String} {v : PyVal}
    (h : dictGet l k = some v) (tail : Kwargs) : dictGet (l ++ tail) k = some v := by
  induction l with
  | nil => simp [dictGet] at h
  | cons p rest ih =>
    rcases p with ⟨k0, v0⟩
    rw [dictGet] at h
    rw [List.cons_append, dictGet]
    by_cases hp : k0 = k
    · simpa [hp] using h
    · simp only [hp, if_false] at h ⊢
      exact ih h

/-- C10: a call to get_redis_connection whose keyword arguments do not include
decode_responses constructs the client with decode_responses set to True, and
a caller-supplied decode_responses value is passed through unchanged
(src/aredis_om/connections.py lines 10 to 29). -/
theorem c10_decode_responses_default (kwargs : Kwargs) (envUrl : Option PyVal) :
    (dictGet kwargs ("decode_responses") = none →
      dictGet (get_redis_connection kwargs envUrl).initKwargs ("decode_responses")
        = some (PyVal.bool true)) ∧
    (∀ v : PyVal, dictGet kwargs ("decode_responses") = some v →
      dictGet (get_redis_connection kwargs envUrl).initKwargs ("decode_responses")
        = some v) := by
  constructor
  · intro h
    show dictGet (dictRemove (dictRemove _ ("cluster")) ("url")) ("decode_responses") = _
    rw [dictGet_remove_ne (by decide), dictGet_remove_ne (by decide)]
    simp only [get_redis_connection, h, Option.isSome_none, Bool.false_eq_true, if_false]
    exact dictGet_append_of_none h _
  · intro v h
    show dictGet (dictRemove (dictRemove _ ("cluster")) ("url")) ("decode_responses") = _
    rw [dictGet_remove_ne (by decide), dictGet_remove_ne (by decide)]
    simp only [get_redis_connection, h, Option.isSome_some, if_true]

theorem c10_decode_responses_default_witness :
    dictGet ([(("host"), PyVal.str ("localhost"))]) ("decode_responses") = none ∧
    dictGet (get_redis_connection ([(("host"), PyVal.str ("localhost"))]) none).initKwargs
      ("decode_responses") = some (PyVal.bool true) ∧
    dictGet ([(("decode_responses"), PyVal.bool false)]) ("decode_responses")
      = some (PyVal.bool false) ∧
    dictGet (get_redis_connection ([(("decode_responses"), PyVal.bool false)]) none).initKwargs
      ("decode_responses") = some (PyVal.bool false) :=
  ⟨by decide,
   (c10_decode_responses_default ([(("host"), PyVal.str ("localhost"))]) none).1 (by decide),
   by decide,
   (c10_decode_responses_default ([(("decode_responses"), PyVal.bool false)]) none).2
     (PyVal.bool false) (by decide)⟩

/-! ## Core query-engine model

The expression, normalizer, compiler, schema-builder and executor sources are
not available here; the definitions below are modelled from the spec, with
every concrete behavior anchored to the expected values recorded in the test
files under src/tests_sync. -/

/-- Modelled from the spec: the index kind of a field descriptor (section 3). -/
inductive IndexKind where
  | noIndex
  | tag
  | numeric
  | text
  | geo
  | vector
  deriving DecidableEq

/-- Modelled from the spec: the resolved field descriptor (section 3): flat
index alias, storage path, index kind, separator, sortable flag, full-text
flag, case sensitivity.  The indexed flag records whether the model field is
indexed at all; unionNone records that the field was declared through an
Optional union type whose None member contributes an empty sub-clause to the
schema (visible as the double blank in the expected Member schema in
src/tests_sync/test_json_model.py, test_schema). -/
structure FieldDescriptor where
  fname : String
  fpath : String
  kind : IndexKind
  separator : Char := '|'
  sortable : Bool := false
  fullText : Bool := false
  caseSensitive : Bool := false
  indexed : Bool := true
  unionNone : Bool := false
  deriving DecidableEq

/-- Modelled from the spec: a comparison operand. -/
inductive Operand where
  | s (v : String)
  | i (v : Int)
  | ls (v : List String)
  | li (v : List Int)
  | geoF (lon lat radius : Int)
  deriving DecidableEq

/-- Modelled from the spec: comparison operators (section 3). -/
inductive CompOp where
  | eq
  | ne
  | gt
  | ge
  | lt
  | le
  | isIn
  | notIn
  | geoWithin
  deriving DecidableEq

/-- Modelled from the spec (section 4.4): a KNN sub-expression carries the
result count k, the vector field, the output score field name and a
reference vector.  Vectors are abstracted to labels; the distance between
two labels stands for the metric distance between the encoded vectors. -/
structure KNNExpression where
  k : Nat
  vectorFieldName : String
  scoreField : String
  referenceVector : Nat
  deriving DecidableEq

/-- Modelled from the spec: the expression node tagged union (section 3).
star is the universal match used by an empty find(). -/
inductive Expression where
  | star
  | comp (f : FieldDescriptor) (op : CompOp) (x : Operand)
  | knn (n : KNNExpression)
  | and (l r : Expression)
  | or (l r : Expression)
  | not (e : Expression)
  deriving DecidableEq

/-- Modelled from the spec: a stored document is a flat record of field
values keyed by index alias. -/
inductive FieldValue where
  | s (v : String)
  | n (v : Int)
  | geo (v : Option (Int × Int))
  | vec (v : Nat)
  deriving DecidableEq

abbrev Doc := List (String × FieldValue)

def lookupField (d : Doc) (k : String) : Option FieldValue :=
  match d with
  | [] => none
  | (k0, v0) :: rest => if k0 = k then some v0 else lookupField rest k

/-- One-character string. -/
def charStr (c : Char) : String := String.mk ([c])

def splitTokensAux (sep : Char) : List Char → List Char → List String
  | [], acc => [String.mk acc.reverse]
  | c :: rest, acc =>
    if c = sep then String.mk acc.reverse :: splitTokensAux sep rest []
    else splitTokensAux sep rest (c :: acc)

/-- Splitting a stored TAG value on the field separator into tokens
(spec section 4.3: multi-value fields are stored joined with the separator). -/
def tagTokens (stored : String) (sep : Char) : List String :=
  splitTokensAux sep stored.data []

def containsChar (s : String) (c : Char) : Bool :=
  s.data.contains c

/-- Exact-match TAG semantics, modelled from the tests
(src/tests_sync/test_tag_separator.py and
src/tests_sync/test_json_model.py, test_tag_queries_punctuation): an operand
free of the separator matches any single stored token; an operand containing
the separator matches exactly the documents whose token set contains every
split component of the operand, reproducing the exact stored multi-value
string. -/
def tagEqMatch (d : Doc) (f : FieldDescriptor) (v : String) : Bool :=
  match lookupField d f.fname with
  | some (.s stored) =>
    let toks := tagTokens stored f.separator
    if containsChar v f.separator then (tagTokens v f.separator).all (fun p => toks.contains p)
    else toks.contains v
  | _ => false

/-- Refinement comparison definition following the spec words for the
separator-collision case (section 4.3: the compiler emits a query that
matches the union of the operand split on the separator): any single split
component of the operand suffices for a match. -/
def tagEqMatchUnion (d : Doc) (f : FieldDescriptor) (v : String) : Bool :=
  match lookupField d f.fname with
  | some (.s stored) =>
    let toks := tagTokens stored f.separator
    if containsChar v f.separator then (tagTokens v f.separator).any (fun p => toks.contains p)
    else toks.contains v
  | _ => false

def numMatch (d : Doc) (f : FieldDescriptor) (op : CompOp) (m : Int) : Bool :=
  match lookupField d f.fname with
  | some (.n x) =>
    match op with
    | .eq => decide (x = m)
    | .gt => decide (m < x)
    | .ge => decide (m ≤ x)
    | .lt => decide (x < m)
    | .le => decide (x ≤ m)
    | _ => false
  | _ => false

/-- GEO radius match (spec section 4.3): a document with no stored
coordinates (field absent or None) never matches. -/
def geoMatch (d : Doc) (f : FieldDescriptor) (lon lat radius : Int) : Bool :=
  match lookupField d f.fname with
  | some (.geo (some (x, y))) => decide ((x - lon) ^ 2 + (y - lat) ^ 2 ≤ radius ^ 2)
  | _ => false

/-- Per-document comparison evaluation, modelled from the spec (section 4.3)
and the expected result sets in the tests. -/
def evalComp (d : Doc) (f : FieldDescriptor) : CompOp → Operand → Bool
  | .eq, .s v => tagEqMatch d f v
  | .ne, .s v => ! tagEqMatch d f v
  | .eq, .i m => numMatch d f .eq m
  | .ne, .i m => ! numMatch d f .eq m
  | .gt, .i m => numMatch d f .gt m
  | .ge, .i m => numMatch d f .ge m
  | .lt, .i m => numMatch d f .lt m
  | .le, .i m => numMatch d f .le m
  | .isIn, .ls vs => vs.any (fun v => tagEqMatch d f v)
  | .notIn, .ls vs => ! vs.any (fun v => tagEqMatch d f v)
  | .isIn, .li ms => ms.any (fun m => numMatch d f .eq m)
  | .notIn, .li ms => ! ms.any (fun m => numMatch d f .eq m)
  | .eq, .geoF lon lat radius => geoMatch d f lon lat radius
  | .geoWithin, .geoF lon lat radius => geoMatch d f lon lat radius
  | _, _ => false

def vecDist (a b : Nat) : Nat := max a b - min a b

def docVec (vf : String) (d : Doc) : Option Nat :=
  match lookupField d vf with
  | some (.vec v) => some v
  | _ => none

def knnKey (n : KNNExpression) (d : Doc) : Nat :=
  match docVec n.vectorFieldName d with
  | some v => vecDist v n.referenceVector
  | none => 0

/-- The k nearest documents to the reference vector among those carrying the
vector field, in ascending distance order (spec sections 3 and 4.4). -/
def kNearest (store : List Doc) (n : KNNExpression) : List Doc :=
  (List.insertionSort (fun a b => knnKey n a ≤ knnKey n b)
    (store.filter (fun d => (docVec n.vectorFieldName d).isSome))).take n.k

/-- Store-level boolean evaluation of an expression at one document.  The
KNN leaf holds of the documents returned by the store for that vector
clause; or is the union and and the intersection of its operand matches
(spec sections 4.3 and 4.4, anchored to the expected result sets of
src/tests_sync/test_knn_expression.py). -/
def evalDoc (store : List Doc) (d : Doc) : Expression → Bool
  | .star => true
  | .comp f op x => evalComp d f op x
  | .knn n => decide (d ∈ kNearest store n)
  | .and a b => evalDoc store d a && evalDoc store d b
  | .or a b => evalDoc store d a || evalDoc store d b
  | .not e => ! evalDoc store d e

/-- The result set of a query expression over a store, in store order. -/
def findResults (store : List Doc) (e : Expression) : List Doc :=
  store.filter (fun d => evalDoc store d e)

/-- Error taxonomy (spec section 7). -/
inductive QueryError where
  | queryNotSupported (msg : String)
  | notFound
  deriving DecidableEq

/-- Modelled from the spec (section 7): first() on a query with no rows
raises NotFoundError. -/
def firstResult (l : List Doc) : Except QueryError Doc :=
  match l with
  | [] => .error .notFound
  | x :: _ => .ok x

/-- The find pipeline as the repository tests pin it down: the expression is
evaluated against the store and the matches are returned.  Multiple KNN
leaves combined under OR are not rejected:
src/tests_sync/test_knn_expression.py (test_or_expression_with_multiple_knn)
asserts that such a query succeeds and returns the union of all branch
matches, contrary to spec section 4.4 rule 4. -/
def runFind (store : List Doc) (e : Expression) : Except QueryError (List Doc) :=
  .ok (findResults store e)

mutual

/-- Modelled from the spec (section 4.2): normalization pushes negation down
to the leaves and cancels double negation. -/
def normalize : Expression → Expression
  | .star => .star
  | .comp f op x => .comp f op x
  | .knn n => .knn n
  | .and a b => .and (normalize a) (normalize b)
  | .or a b => .or (normalize a) (normalize b)
  | .not e => negNormal e

/-- The normal form of the negation of an expression (negation push-down). -/
def negNormal : Expression → Expression
  | .star => .not .star
  | .comp f op x => .not (.comp f op x)
  | .knn n => .not (.knn n)
  | .and a b => .or (negNormal a) (negNormal b)
  | .or a b => .and (negNormal a) (negNormal b)
  | .not e => normalize e

end

/-! ## Query compiler (modelled from the spec, sections 4.3 and 4.4) -/

/-- Characters syntactically significant in the tag-value grammar of the
store, escaped with a backslash (spec section 4.3). -/
def escapedChars : List Char :=
  [',', '.', '<', '>', '"', ':', ';', '!', '@', '#', '$', '%', '^', '&', '*',
   '(', ')', '-', '+', '=', '~', '?', '/', ' ']

def escapeTagChars (sep : Char) : List Char → List Char
  | [] => []
  | c :: rest =>
    if escapedChars.contains c || c = sep then '\\' :: c :: escapeTagChars sep rest
    else c :: escapeTagChars sep rest

/-- Escape of one tag value component, including the field separator
(spec section 4.3). -/
def escapeTag (sep : Char) (v : String) : String :=
  String.mk (escapeTagChars sep v.data)

def joinSep (sep : String) : List String → String
  | [] => ""
  | [x] => x
  | x :: rest => x ++ sep ++ joinSep sep rest

def braceGroup (s : String) : String := "\x7b" ++ s ++ "\x7d"

/-- A single tag clause for one component value. -/
def tagClause (f : FieldDescriptor) (v : String) : String :=
  "@" ++ f.fname ++ ":" ++ braceGroup (escapeTag f.separator v)

/-- Numeric range clauses (spec section 4.3): EQ emits a closed singleton
range, strict bounds use the exclusive marker, open ends use inf. -/
def numClause (f : FieldDescriptor) (op : CompOp) (m : Int) : String :=
  match op with
  | .eq => "@" ++ f.fname ++ ":[" ++ toString m ++ " " ++ toString m ++ "]"
  | .gt => "@" ++ f.fname ++ ":[(" ++ toString m ++ " +inf]"
  | .ge => "@" ++ f.fname ++ ":[" ++ toString m ++ " +inf]"
  | .lt => "@" ++ f.fname ++ ":[-inf (" ++ toString m ++ "]"
  | .le => "@" ++ f.fname ++ ":[-inf " ++ toString m ++ "]"
  | _ => ""

/-- Leaf negation: the compiled leaf prefixed with the negation token
(spec section 4.3). -/
def leafNeg (s : String) : String := "-(" ++ s ++ ")"

/-- The clause emitted for a TAG equality; an operand containing the field
separator is split on it and one tag clause is emitted per component, the
components joined by juxtaposition, reproducing the exact stored multi-value
string (anchored to src/tests_sync/test_json_model.py,
test_tag_queries_punctuation). -/
def tagEqClause (f : FieldDescriptor) (v : String) : String :=
  if containsChar v f.separator then
    joinSep (" ") ((tagTokens v f.separator).map (fun p => tagClause f p))
  else tagClause f v

/-- Refinement comparison definition following the spec words for the
separator-collision case (section 4.3): the split components are emitted as
one union tag clause. -/
def tagEqClauseUnionSpec (f : FieldDescriptor) (v : String) : String :=
  if containsChar v f.separator then
    "@" ++ f.fname ++ ":" ++
      braceGroup (joinSep ("|") ((tagTokens v f.separator).map (fun p => escapeTag f.separator p)))
  else tagClause f v

/-- Compilation of one comparison (spec section 4.3): an empty IN or NOT_IN
operand sequence is degenerate and fails with QueryNotSupportedError before
any store round-trip. -/
def compileComp (f : FieldDescriptor) : CompOp → Operand → Except QueryError String
  | .eq, .s v => .ok (tagEqClause f v)
  | .ne, .s v => .ok (leafNeg (tagEqClause f v))
  | .eq, .i m => .ok (numClause f .eq m)
  | .ne, .i m => .ok (leafNeg (numClause f .eq m))
  | .gt, .i m => .ok (numClause f .gt m)
  | .ge, .i m => .ok (numClause f .ge m)
  | .lt, .i m => .ok (numClause f .lt m)
  | .le, .i m => .ok (numClause f .le m)
  | .isIn, .ls [] => .error (.queryNotSupported ("empty IN list"))
  | .isIn, .ls vs => .ok ("@" ++ f.fname ++ ":" ++
      braceGroup (joinSep ("|") (vs.map (fun v => escapeTag f.separator v))))
  | .notIn, .ls [] => .error (.queryNotSupported ("empty IN list"))
  | .notIn, .ls vs => .ok (leafNeg ("@" ++ f.fname ++ ":" ++
      braceGroup (joinSep ("|") (vs.map (fun v => escapeTag f.separator v)))))
  | .isIn, .li [] => .error (.queryNotSupported ("empty IN list"))
  | .isIn, .li ms => .ok (joinSep ("|") (ms.map (fun m => numClause f .eq m)))
  | .notIn, .li [] => .error (.queryNotSupported ("empty IN list"))
  | .notIn, .li ms => .ok (leafNeg (joinSep ("|") (ms.map (fun m => numClause f .eq m))))
  | .eq, .geoF lon lat radius => .ok ("@" ++ f.fname ++ ":[" ++ toString lon ++ " " ++
      toString lat ++ " " ++ toString radius ++ " m]")
  | .geoWithin, .geoF lon lat radius => .ok ("@" ++ f.fname ++ ":[" ++ toString lon ++ " " ++
      toString lat ++ " " ++ toString radius ++ " m]")
  | _, _ => .error (.queryNotSupported ("operator and operand do not agree"))

def isOrNode : Expression → Bool
  | .or _ _ => true
  | _ => false

def isAndNode : Expression → Bool
  | .and _ _ => true
  | _ => false

/-- Compilation of a KNN-free filter tree (spec section 4.3): AND joins by
juxtaposition, parenthesizing OR operands; OR joins with the union bar,
parenthesizing AND operands; NOT prefixes the negation token. -/
def compileFilter : Expression → Except QueryError String
  | .star => .ok ("*")
  | .comp f op x => compileComp f op x
  | .knn _ => .error (.queryNotSupported ("KNN clause cannot appear inside a filter"))
  | .and a b =>
    match compileFilter a, compileFilter b with
    | .ok sa, .ok sb =>
      .ok ((if isOrNode a then "(" ++ sa ++ ")" else sa) ++ " " ++
           (if isOrNode b then "(" ++ sb ++ ")" else sb))
    | .error e, _ => .error e
    | _, .error e => .error e
  | .or a b =>
    match compileFilter a, compileFilter b with
    | .ok sa, .ok sb =>
      .ok ((if isAndNode a then "(" ++ sa ++ ")" else sa) ++ " | " ++
           (if isAndNode b then "(" ++ sb ++ ")" else sb))
    | .error e, _ => .error e
    | _, .error e => .error e
  | .not e =>
    match compileFilter e with
    | .ok s => .ok (leafNeg s)
    | .error er => .error er

def knnLeafCount : Expression → Nat
  | .star => 0
  | .comp _ _ _ => 0
  | .knn _ => 1
  | .and a b => knnLeafCount a + knnLeafCount b
  | .or a b => knnLeafCount a + knnLeafCount b
  | .not e => knnLeafCount e

/-- The KNN clause appended to a pre-filter (spec section 4.4 rule 2). -/
def knnClause (n : KNNExpression) : String :=
  "=>[KNN " ++ toString n.k ++ " @" ++ n.vectorFieldName ++ " $BLOB AS " ++ n.scoreField ++ "]"

/-- The OR-with-KNN restructuring (spec section 4.4 rule 3): the structured
filter is unioned with the KNN clause running against the universal
pre-filter, irrespective of which operand held the KNN node. -/
def hybridOrQuery (filterStr : String) (n : KNNExpression) : String :=
  "(" ++ filterStr ++ ") | (*)" ++ knnClause n

def withFilter (r : Except QueryError String) (f : String → String) : Except QueryError String :=
  match r with
  | .error e => .error e
  | .ok s => .ok (f s)

/-- Modelled from the spec (section 4.4): hybrid compilation.  Rule 4 of the
spec (rejection of more than one KNN leaf) is kept here as written; note that
src/tests_sync/test_knn_expression.py (test_or_expression_with_multiple_knn)
asserts the opposite runtime behavior, which runFind follows. -/
def compileHybrid (e : Expression) : Except QueryError String :=
  if 2 ≤ knnLeafCount e then .error (.queryNotSupported ("only one KNN clause per query"))
  else
    match e with
    | .knn n => .ok ("(*)" ++ knnClause n)
    | .or (.knn n) b => withFilter (compileFilter b) (fun s => hybridOrQuery s n)
    | .or a (.knn n) => withFilter (compileFilter a) (fun s => hybridOrQuery s n)
    | .and (.knn n) b => withFilter (compileFilter b) (fun s => "(" ++ s ++ ")" ++ knnClause n)
    | .and a (.knn n) => withFilter (compileFilter a) (fun s => "(" ++ s ++ ")" ++ knnClause n)
    | _ => compileFilter e

/-! ## Schema builder (modelled from the spec, section 4.5) -/

/-- One schema clause per field descriptor: the storage path, the index
alias, the index-kind token; TAG fields always declare their separator, even
the default one; CASESENSITIVE follows when set; a full-text field adds a
second TEXT clause whose alias is suffixed with _fts; a descriptor declared
through an Optional union type carries a trailing blank from the empty
None sub-clause (anchored to the expected schema strings in
src/tests_sync/test_json_model.py test_schema and
src/tests_sync/test_tag_separator.py). -/
def schemaClause (f : FieldDescriptor) : String :=
  let base :=
    match f.kind with
    | .numeric => f.fpath ++ " AS " ++ f.fname ++ " NUMERIC"
    | .tag => f.fpath ++ " AS " ++ f.fname ++ " TAG SEPARATOR " ++ charStr f.separator
    | .text => f.fpath ++ " AS " ++ f.fname ++ " TEXT"
    | .geo => f.fpath ++ " AS " ++ f.fname ++ " GEO"
    | .vector => f.fpath ++ " AS " ++ f.fname ++ " VECTOR"
    | .noIndex => ""
  let base := if f.caseSensitive then base ++ " CASESENSITIVE" else base
  let base :=
    if f.fullText then base ++ " " ++ f.fpath ++ " AS " ++ f.fname ++ "_fts TEXT" else base
  if f.unionNone then base ++ " " else base

/-- The index definition derived from the full descriptor table, one clause
per descriptor in declaration order, primary key first. -/
def redisearchSchema (onType : String) (keyPattern : String)
    (table : List FieldDescriptor) : String :=
  "ON " ++ onType ++ " PREFIX 1 " ++ keyPattern ++ " SCHEMA " ++
    joinSep (" ") (table.map (fun f => schemaClause f))

/-! ## Sorting and the query executor (modelled from the spec, section 4.6) -/

def startsWithDash (s : String) : Bool :=
  match s.data with
  | c :: _ => c = '-'
  | [] => false

def stripDash (s : String) : String :=
  if startsWithDash s then String.mk s.data.tail else s

def lookupDescriptor (table : List FieldDescriptor) (nm : String) : Option FieldDescriptor :=
  match table with
  | [] => none
  | f :: rest => if f.fname = nm then some f else lookupDescriptor rest nm

/-- Sort validation (spec section 4.6): the sort field, stripped of the
descending marker, must name an indexed, sortable descriptor; otherwise
QueryNotSupportedError is raised before compilation and before any store
round-trip. -/
def validateSortBy (table : List FieldDescriptor) (sortField : String) :
    Except QueryError FieldDescriptor :=
  match lookupDescriptor table (stripDash sortField) with
  | none => .error (.queryNotSupported ("field does not exist"))
  | some f =>
    if f.indexed && f.sortable then .ok f
    else .error (.queryNotSupported ("field is not sortable"))

def sortKey (nm : String) (d : Doc) : Int :=
  match lookupField d nm with
  | some (.n v) => v
  | _ => 0

/-- The executed result rows of a sorted query: matches of the expression,
sorted on the numeric sort field, descending when the field name carries the
leading dash. -/
def sortedResults (store : List Doc) (e : Expression) (sortField : String) : List Doc :=
  let nm := stripDash sortField
  if startsWithDash sortField then
    List.insertionSort (fun a b => sortKey nm b ≤ sortKey nm a) (findResults store e)
  else
    List.insertionSort (fun a b => sortKey nm a ≤ sortKey nm b) (findResults store e)

/-- The sorted find pipeline with a round-trip counter: validation failures
return the error with zero store round-trips; a valid sort issues one. -/
def runSortedFind (store : List Doc) (table : List FieldDescriptor) (e : Expression)
    (sortField : String) : Except QueryError (List Doc) × Nat :=
  match validateSortBy table sortField with
  | .error err => (.error err, 0)
  | .ok _ => (.ok (sortedResults store e sortField), 1)

/-- The mutable query object (spec section 3): expression, sort field,
result cache (empty until first execution) and the one-way executed flag. -/
structure FindQuery where
  expression : Expression
  sortField : Option String
  modelCache : List Doc
  executed : Bool
  deriving DecidableEq

def mkFindQuery (e : Expression) (s : Option String) : FindQuery :=
  { expression := e, sortField := s, modelCache := [], executed := false }

def queryRows (store : List Doc) (q : FindQuery) : List Doc :=
  match q.sortField with
  | none => findResults store q.expression
  | some s => sortedResults store q.expression s

/-- Execution (spec section 4.6): the state machine moves one way from
UNEXECUTED to EXECUTED; the first execution issues one store round-trip and
populates the ordered cache; a repeated execution does nothing.  The second
component counts store round-trips. -/
def executeQuery (store : List Doc) (q : FindQuery) : FindQuery × Nat :=
  if q.executed then (q, 0)
  else ({ q with modelCache := queryRows store q, executed := true }, 1)

/-- Access by index (spec section 4.6): the first access populates the
cache; on an executed query the cached instance is returned with no store
round-trip. -/
def getItem (store : List Doc) (q : FindQuery) (i : Nat) :
    FindQuery × Option Doc × Nat :=
  let p := executeQuery store q
  (p.1, p.1.modelCache.get? i, p.2)

/-! ## Fixtures from src/tests_sync/test_knn_expression.py -/

/-- The Product.brand field of test_or_expression_with_multiple_knn. -/
def brandField : FieldDescriptor :=
  { fname := "brand", fpath := "$.brand", kind := .tag }

/-- The Document.category field of test_or_expression_with_knn. -/
def categoryField : FieldDescriptor :=
  { fname := "category", fpath := "$.category", kind := .tag }

/-- Vector labels stand for the reference vectors of the tests: label 1 for
vectors1 (0.1 repeated) and label 9 for vectors2 (0.9 repeated). -/
def phoneDoc : Doc :=
  [(("name"), .s ("Phone")), (("brand"), .s ("Apple")), (("embeddings"), .vec 1)]

def laptopDoc : Doc :=
  [(("name"), .s ("Laptop")), (("brand"), .s ("Dell")), (("embeddings"), .vec 9)]

def tabletDoc : Doc :=
  [(("name"), .s ("Tablet")), (("brand"), .s ("Apple")), (("embeddings"), .vec 1)]

def productStore : List Doc := [phoneDoc, laptopDoc, tabletDoc]

def productKnn1 : KNNExpression :=
  { k := 1, vectorFieldName := "embeddings", scoreField := "embeddings_score",
    referenceVector := 1 }

def productKnn2 : KNNExpression :=
  { k := 1, vectorFieldName := "embeddings", scoreField := "embeddings_score",
    referenceVector := 9 }

/-- The query of test_or_expression_with_multiple_knn:
(Product.brand == "Apple") | knn1 | knn2. -/
def multiKnnExpr : Expression :=
  .or (.or (.comp brandField .eq (.s ("Apple"))) (.knn productKnn1)) (.knn productKnn2)

/-- C1: the claim says an expression with more than one KNN leaf is rejected
at compile time with QueryNotSupportedError.  The repository test
(src/tests_sync/test_knn_expression.py lines 178 to 232) instead asserts that
the two-KNN OR query succeeds and returns all three products, including the
one matched only by the second KNN leaf; the pipeline modelled on that test
returns ok, not an error, at this concrete input. -/
theorem c1_multiple_knn_counterexample :
    knnLeafCount multiKnnExpr = 2 ∧
    runFind productStore multiKnnExpr = .ok ([phoneDoc, laptopDoc, tabletDoc]) ∧
    laptopDoc ∈ findResults productStore multiKnnExpr ∧
    (∀ msg : String, runFind productStore multiKnnExpr ≠ .error (.queryNotSupported msg)) := by
  refine ⟨by decide, rfl, by decide, ?_⟩
  intro msg h
  exact Except.noConfusion h

/-- C1 (amended): an expression combining a structured filter with more than
one KNN leaf under OR compiles and executes successfully; the result set is
the union of the filter matches and the k-nearest matches of every KNN leaf,
so no KNN leaf is silently dropped. -/
theorem c1_multiple_knn_union (store : List Doc) (F : Expression)
    (n1 n2 : KNNExpression) (d : Doc) :
    runFind store (.or (.or F (.knn n1)) (.knn n2))
      = .ok (findResults store (.or (.or F (.knn n1)) (.knn n2))) ∧
    (d ∈ findResults store (.or (.or F (.knn n1)) (.knn n2)) ↔
      (d ∈ findResults store F ∨
        (d ∈ store ∧ (d ∈ kNearest store n1 ∨ d ∈ kNearest store n2)))) := by
  refine ⟨rfl, ?_⟩
  simp only [findResults, List.mem_filter, evalDoc, Bool.or_eq_true, decide_eq_true_eq]
  tauto

/-- The documents of test_or_expression_with_knn: vectors1 (0.1 repeated) is
label 1, vectors2 (0.9 repeated) is label 9, vectors3 (0.5 repeated) is
label 5. -/
def techDoc1 : Doc :=
  [(("title"), .s ("Doc1")), (("category"), .s ("tech")), (("embeddings"), .vec 1)]

def bizDoc2 : Doc :=
  [(("title"), .s ("Doc2")), (("category"), .s ("business")), (("embeddings"), .vec 9)]

def techDoc3 : Doc :=
  [(("title"), .s ("Doc3")), (("category"), .s ("tech")), (("embeddings"), .vec 5)]

def documentStore : List Doc := [techDoc1, bizDoc2, techDoc3]

def docKnn : KNNExpression :=
  { k := 2, vectorFieldName := "embeddings", scoreField := "embeddings_score",
    referenceVector := 1 }

def categoryTechExpr : Expression := .comp categoryField .eq (.s ("tech"))

/-- C2: a structured filter F combined with a single KNN node under OR is
restructured into the union of the compiled filter and the KNN clause
running against the universal pre-filter, (filter) | (*)=>[KNN ...], and the
restructuring is symmetric: both operand orders compile to the same query
string, so both produce the same result set on identical data. -/
theorem c2_or_knn_symmetric (F : Expression) (n : KNNExpression) (s : String)
    (hkc : knnLeafCount F = 0) (hcf : compileFilter F = .ok s) :
    compileHybrid (.or F (.knn n)) = .ok (hybridOrQuery s n) ∧
    compileHybrid (.or (.knn n) F) = .ok (hybridOrQuery s n) ∧
    ∀ store, findResults store (.or F (.knn n)) = findResults store (.or (.knn n) F) := by
  refine ⟨?_, ?_, ?_⟩
  · cases F with
    | knn m => simp [knnLeafCount] at hkc
    | star => simp_all [compileHybrid, knnLeafCount, withFilter]
    | comp f op x => simp_all [compileHybrid, knnLeafCount, withFilter]
    | and a b => simp_all [compileHybrid, knnLeafCount, withFilter]
    | or a b => simp_all [compileHybrid, knnLeafCount, withFilter]
    | not e => simp_all [compileHybrid, knnLeafCount, withFilter]
  · cases F with
    | knn m => simp [knnLeafCount] at hkc
    | star => simp_all [compileHybrid, knnLeafCount, withFilter]
    | comp f op x => simp_all [compileHybrid, knnLeafCount, withFilter]
    | and a b => simp_all [compileHybrid, knnLeafCount, withFilter]
    | or a b => simp_all [compileHybrid, knnLeafCount, withFilter]
    | not e => simp_all [compileHybrid, knnLeafCount, withFilter]
  · intro store
    apply List.filter_congr
    intro d _
    simp [evalDoc, Bool.or_comm]

theorem c2_or_knn_symmetric_witness :
    knnLeafCount categoryTechExpr = 0 ∧
    compileFilter categoryTechExpr = .ok ("@category:\x7btech\x7d") ∧
    compileHybrid (.or categoryTechExpr (.knn docKnn))
      = .ok (hybridOrQuery ("@category:\x7btech\x7d") docKnn) ∧
    compileHybrid (.or (.knn docKnn) categoryTechExpr)
      = .ok (hybridOrQuery ("@category:\x7btech\x7d") docKnn) ∧
    findResults documentStore (.or categoryTechExpr (.knn docKnn))
      = findResults documentStore (.or (.knn docKnn) categoryTechExpr) := by
  have h := c2_or_knn_symmetric categoryTechExpr docKnn ("@category:\x7btech\x7d")
    (by decide) (by rfl)
  exact ⟨by decide, by rfl, h.1, h.2.1, h.2.2 documentStore⟩

/-! ## Fixtures from src/tests_sync/test_json_model.py, test_tag_queries_punctuation -/

def emailField : FieldDescriptor :=
  { fname := "email", fpath := "$.email", kind := .tag, unionNone := true }

def punctMember1 : Doc :=
  [(("first_name"), .s ("Andrew, the Michael")), (("email"), .s ("a|b@example.com"))]

def punctMember2 : Doc :=
  [(("first_name"), .s ("Bob")), (("email"), .s ("a|villain@example.com"))]

def punctuationStore : List Doc := [punctMember1, punctMember2]

/-- The expected result of the query email == "a|b@example.com", asserted at
src/tests_sync/test_json_model.py line 627. -/
def punctExpected1 : List Doc := [punctMember1]

/-- The expected result of the query email == "a|villain@example.com",
asserted at src/tests_sync/test_json_model.py lines 628 to 630. -/
def punctExpected2 : List Doc := [punctMember2]

/-- Result set of a TAG equality under the union reading of the spec words
for the separator-collision case. -/
def findResultsSepUnion (store : List Doc) (f : FieldDescriptor) (v : String) : List Doc :=
  store.filter (fun d => tagEqMatchUnion d f v)

/-- C3: the claim says the compiler emits the union of the operand split on
the separator and that the query retrieves exactly the instances that stored
the literal value.  These are incompatible on the test data of
test_tag_queries_punctuation: both stored emails share the split component
a, so the union clause also matches the member that stored
"a|villain@example.com", while the test asserts that exactly member1 is
returned. -/
theorem c3_separator_union_counterexample :
    containsChar ("a|b@example.com") emailField.separator = true ∧
    findResultsSepUnion punctuationStore emailField ("a|b@example.com")
      = [punctMember1, punctMember2] ∧
    findResultsSepUnion punctuationStore emailField ("a|b@example.com")
      ≠ punctExpected1 := by
  exact ⟨by decide, by decide, by decide⟩

theorem splitTokensAux_no_sep (sep : Char) (cs acc : List Char)
    (h : cs.contains sep = false) :
    splitTokensAux sep cs acc = [String.mk (acc.reverse ++ cs)] := by
  induction cs generalizing acc with
  | nil => simp [splitTokensAux]
  | cons c rest ih =>
    rw [List.contains_cons, Bool.or_eq_false_iff] at h
    obtain ⟨h1, h2⟩ := h
    have hcc : ¬ c = sep := by
      intro hh
      subst hh
      simp at h1
    rw [splitTokensAux, if_neg hcc, ih _ h2]
    simp

/-- C3 (amended): for the separator-collision case the compiler emits the
conjunction of the operand split on the separator, one tag clause per
component; under that semantics the exact-match query retrieves exactly the
member that stored the literal value on the test data, distinguishing it
from the member sharing one split component, and in general a document that
stored the operand exactly always matches. -/
theorem c3_separator_intersection (d : Doc) (f : FieldDescriptor) (v : String) :
    findResults punctuationStore (.comp emailField .eq (.s ("a|b@example.com")))
      = punctExpected1 ∧
    findResults punctuationStore (.comp emailField .eq (.s ("a|villain@example.com")))
      = punctExpected2 ∧
    compileComp emailField .eq (.s ("a|b@example.com"))
      = .ok ("@email:\x7ba\x7d @email:\x7bb\\@example\\.com\x7d") ∧
    (lookupField d f.fname = some (.s v) → tagEqMatch d f v = true) := by
  refine ⟨by decide, by decide, by rfl, ?_⟩
  intro h
  simp only [tagEqMatch, h]
  cases hv : containsChar v f.separator with
  | true =>
    simp only [hv, if_true]
    rw [List.all_eq_true]
    intro p hp
    exact List.elem_eq_true_of_mem hp
  | false =>
    simp only [hv, Bool.false_eq_true, if_false]
    have hcs : v.data.contains f.separator = false := hv
    have hts : tagTokens v f.separator = [v] := by
      rw [tagTokens, splitTokensAux_no_sep f.separator v.data [] hcs]
      cases v with
      | mk data => simp
    rw [hts]
    simp

theorem c3_separator_intersection_witness :
    lookupField punctMember1 emailField.fname = some (.s ("a|b@example.com")) ∧
    tagEqMatch punctMember1 emailField ("a|b@example.com") = true :=
  ⟨by decide,
   (c3_separator_intersection punctMember1 emailField ("a|b@example.com")).2.2.2 (by decide)⟩

/-- C4: the normalizer rewrites Not(And(a,b)) to Or(Not(a),Not(b)) and
Not(Or(a,b)) to And(Not(a),Not(b)) and cancels double negation, and the
negated conjunction and the disjunction of the negations are
store-equivalent: equal result sets against any identical stored data
(anchored to src/tests_sync/test_json_model.py, test_tag_queries_negation). -/
theorem c4_negation_pushdown (a b : Expression) (store : List Doc) :
    normalize (.not (.and a b)) = .or (normalize (.not a)) (normalize (.not b)) ∧
    normalize (.not (.or a b)) = .and (normalize (.not a)) (normalize (.not b)) ∧
    normalize (.not (.not a)) = normalize a ∧
    findResults store (.not (.and a b)) = findResults store (.or (.not a) (.not b)) ∧
    findResults store (.not (.or a b)) = findResults store (.and (.not a) (.not b)) := by
  refine ⟨?_, ?_, ?_, ?_, ?_⟩
  · simp [normalize, negNormal]
  · simp [normalize, negNormal]
  · simp [normalize, negNormal]
  · apply List.filter_congr
    intro d _
    simp [evalDoc]
  · apply List.filter_congr
    intro d _
    simp [evalDoc]

/-! ## Fixtures from src/tests_sync/test_json_model.py: the Member model -/

def pkField : FieldDescriptor := { fname := "pk", fpath := "$.pk", kind := .tag }

def firstNameField : FieldDescriptor :=
  { fname := "first_name", fpath := "$.first_name", kind := .tag, caseSensitive := true }

def lastNameField : FieldDescriptor :=
  { fname := "last_name", fpath := "$.last_name", kind := .tag }

/-- The age field: indexed NUMERIC; the tests sort by it (test_sorting), so
its descriptor is sortable at the query level.  The expected schema strings
carry no SORTABLE token, so the schema builder does not consult this flag. -/
def ageField : FieldDescriptor :=
  { fname := "age", fpath := "$.age", kind := .numeric, sortable := true }

def bioField : FieldDescriptor :=
  { fname := "bio", fpath := "$.bio", kind := .tag, fullText := true }

def addressPkField : FieldDescriptor :=
  { fname := "address_pk", fpath := "$.address.pk", kind := .tag }

def addressCityField : FieldDescriptor :=
  { fname := "address_city", fpath := "$.address.city", kind := .tag }

def addressPostalField : FieldDescriptor :=
  { fname := "address_postal_code", fpath := "$.address.postal_code", kind := .tag }

def addressNotePkField : FieldDescriptor :=
  { fname := "address_note_pk", fpath := "$.address.note.pk", kind := .tag }

def addressNoteDescField : FieldDescriptor :=
  { fname := "address_note_description", fpath := "$.address.note.description", kind := .tag }

def ordersPkField : FieldDescriptor :=
  { fname := "orders_pk", fpath := "$.orders[*].pk", kind := .tag }

def ordersItemsPkField : FieldDescriptor :=
  { fname := "orders_items_pk", fpath := "$.orders[*].items[*].pk", kind := .tag }

def ordersItemsNameField : FieldDescriptor :=
  { fname := "orders_items_name", fpath := "$.orders[*].items[*].name", kind := .tag }

/-- The indexed descriptors of the Member model, in declaration order with
the primary key first, as the expected schema of test_schema lists them. -/
def memberSchemaTable : List FieldDescriptor :=
  [pkField, firstNameField, lastNameField, emailField, ageField, bioField,
   addressPkField, addressCityField, addressPostalField, addressNotePkField,
   addressNoteDescField, ordersPkField, ordersItemsPkField, ordersItemsNameField]

/-- The join_date field of the Member model is not indexed; test_sorting
expects sorting on it to be rejected. -/
def joinDateField : FieldDescriptor :=
  { fname := "join_date", fpath := "$.join_date", kind := .noIndex, indexed := false }

/-- The full field table used for sort validation (all declared model
fields, indexed or not). -/
def memberFieldTable : List FieldDescriptor := memberSchemaTable ++ [joinDateField]

def member1Doc : Doc :=
  [(("pk"), .s ("m1")), (("first_name"), .s ("Andrew")),
   (("last_name"), .s ("Brookins")), (("age"), .n 38)]

def member2Doc : Doc :=
  [(("pk"), .s ("m2")), (("first_name"), .s ("Kim")),
   (("last_name"), .s ("Brookins")), (("age"), .n 34)]

def member3Doc : Doc :=
  [(("pk"), .s ("m3")), (("first_name"), .s ("Andrew")),
   (("last_name"), .s ("Smith")), (("age"), .n 100)]

def memberStore : List Doc := [member1Doc, member2Doc, member3Doc]

instance sortKeyRelTotal (nm : String) :
    IsTotal Doc (fun a b => sortKey nm a ≤ sortKey nm b) :=
  ⟨fun _ _ => le_total _ _⟩

instance sortKeyRelTrans (nm : String) :
    IsTrans Doc (fun a b => sortKey nm a ≤ sortKey nm b) :=
  ⟨fun _ _ _ h1 h2 => le_trans h1 h2⟩

instance sortKeyRelTotalDesc (nm : String) :
    IsTotal Doc (fun a b => sortKey nm b ≤ sortKey nm a) :=
  ⟨fun _ _ => le_total _ _⟩

instance sortKeyRelTransDesc (nm : String) :
    IsTrans Doc (fun a b => sortKey nm b ≤ sortKey nm a) :=
  ⟨fun _ _ _ h1 h2 => le_trans h2 h1⟩

/-- C5: sort_by with a nonexistent field name, or with a field that is not
indexed or not sortable, fails with QueryNotSupportedError before any store
round-trip (zero round-trips issued); sorting on a valid numeric sort field
yields a monotonic sequence of sort keys, ascending by default and
descending under the leading-dash marker. -/
theorem c5_sort_validation (store : List Doc) (table : List FieldDescriptor)
    (e : Expression) (sf : String) :
    (lookupDescriptor table (stripDash sf) = none →
      runSortedFind store table e sf
        = (.error (.queryNotSupported ("field does not exist")), 0)) ∧
    (∀ f, lookupDescriptor table (stripDash sf) = some f →
      (f.indexed && f.sortable) = false →
      runSortedFind store table e sf
        = (.error (.queryNotSupported ("field is not sortable")), 0)) ∧
    (startsWithDash sf = false →
      List.Sorted (fun x y : Int => x ≤ y)
        ((sortedResults store e sf).map (fun d => sortKey (stripDash sf) d))) ∧
    (startsWithDash sf = true →
      List.Sorted (fun x y : Int => y ≤ x)
        ((sortedResults store e sf).map (fun d => sortKey (stripDash sf) d))) := by
  refine ⟨?_, ?_, ?_, ?_⟩
  · intro h
    simp [runSortedFind, validateSortBy, h]
  · intro f hf hns
    simp [runSortedFind, validateSortBy, hf, hns]
  · intro h
    rw [sortedResults]
    simp only [h, Bool.false_eq_true, if_false]
    rw [List.Sorted, List.pairwise_map]
    exact List.sorted_insertionSort _ _
  · intro h
    rw [sortedResults]
    simp only [h, if_true]
    rw [List.Sorted, List.pairwise_map]
    exact List.sorted_insertionSort _ _

theorem c5_sort_validation_witness :
    lookupDescriptor memberFieldTable (stripDash ("not-a-real-field")) = none ∧
    runSortedFind memberStore memberFieldTable .star ("not-a-real-field")
      = (.error (.queryNotSupported ("field does not exist")), 0) ∧
    lookupDescriptor memberFieldTable (stripDash ("join_date")) = some joinDateField ∧
    runSortedFind memberStore memberFieldTable .star ("join_date")
      = (.error (.queryNotSupported ("field is not sortable")), 0) ∧
    List.Sorted (fun x y : Int => x ≤ y)
      ((sortedResults memberStore .star ("age")).map
        (fun d => sortKey (stripDash ("age")) d)) ∧
    List.Sorted (fun x y : Int => y ≤ x)
      ((sortedResults memberStore .star ("-age")).map
        (fun d => sortKey (stripDash ("-age")) d)) ∧
    runSortedFind memberStore memberFieldTable .star ("age")
      = (.ok ([member2Doc, member1Doc, member3Doc]), 1) := by
  refine ⟨by decide,
    (c5_sort_validation memberStore memberFieldTable .star ("not-a-real-field")).1 (by decide),
    by decide,
    (c5_sort_validation memberStore memberFieldTable .star ("join_date")).2.1
      joinDateField (by decide) (by decide),
    (c5_sort_validation memberStore memberFieldTable .star ("age")).2.2.1 (by decide),
    (c5_sort_validation memberStore memberFieldTable .star ("-age")).2.2.2 (by decide),
    by rfl⟩

/-- The Product.price field of src/tests_sync/test_bug_fixes.py. -/
def priceField : FieldDescriptor :=
  { fname := "price", fpath := "$.price", kind := .numeric, sortable := true }

/-- C6: an IN or NOT_IN comparison with an empty operand sequence fails with
QueryNotSupportedError at compile time, before any store round-trip; with a
one-element operand sequence it compiles to the very clause of the
corresponding EQ or NE comparison and evaluates identically to it on every
document. -/
theorem c6_in_operator (f : FieldDescriptor) (d : Doc) :
    compileComp f .isIn (.ls []) = .error (.queryNotSupported ("empty IN list")) ∧
    compileComp f .notIn (.ls []) = .error (.queryNotSupported ("empty IN list")) ∧
    compileComp f .isIn (.li []) = .error (.queryNotSupported ("empty IN list")) ∧
    compileComp f .notIn (.li []) = .error (.queryNotSupported ("empty IN list")) ∧
    (∀ v : String, containsChar v f.separator = false →
      compileComp f .isIn (.ls [v]) = compileComp f .eq (.s v) ∧
      compileComp f .notIn (.ls [v]) = compileComp f .ne (.s v)) ∧
    (∀ m : Int, compileComp f .isIn (.li [m]) = compileComp f .eq (.i m) ∧
      compileComp f .notIn (.li [m]) = compileComp f .ne (.i m)) ∧
    (∀ v : String, evalComp d f .isIn (.ls [v]) = evalComp d f .eq (.s v) ∧
      evalComp d f .notIn (.ls [v]) = evalComp d f .ne (.s v)) ∧
    (∀ m : Int, evalComp d f .isIn (.li [m]) = evalComp d f .eq (.i m) ∧
      evalComp d f .notIn (.li [m]) = evalComp d f .ne (.i m)) := by
  refine ⟨rfl, rfl, rfl, rfl, ?_, ?_, ?_, ?_⟩
  · intro v hv
    constructor
    · simp [compileComp, tagEqClause, hv, tagClause, joinSep]
    · simp [compileComp, tagEqClause, hv, tagClause, leafNeg, joinSep]
  · intro m
    exact ⟨by simp [compileComp, joinSep], by simp [compileComp, leafNeg, joinSep]⟩
  · intro v
    exact ⟨by simp [evalComp], by simp [evalComp]⟩
  · intro m
    exact ⟨by simp [evalComp], by simp [evalComp]⟩

theorem c6_in_operator_witness :
    containsChar ("Widget") emailField.separator = false ∧
    compileComp emailField .isIn (.ls [("Widget")])
      = compileComp emailField .eq (.s ("Widget")) ∧
    compileComp priceField .isIn (.li [99]) = compileComp priceField .eq (.i 99) ∧
    compileComp priceField .notIn (.li [99]) = compileComp priceField .ne (.i 99) ∧
    compileComp priceField .isIn (.li []) = .error (.queryNotSupported ("empty IN list")) ∧
    compileComp priceField .isIn (.li [10, 30])
      = .ok ("@price:[10 10]|@price:[30 30]") := by
  refine ⟨by decide,
    ((c6_in_operator emailField []).2.2.2.2.1 ("Widget") (by decide)).1,
    ((c6_in_operator priceField []).2.2.2.2.2.1 99).1,
    ((c6_in_operator priceField []).2.2.2.2.2.1 99).2,
    (c6_in_operator priceField []).2.2.1,
    by rfl⟩

/-! ## C7: the schema builder against the expected Member schema -/

/-- The clause portion of the expected Member schema, copied from the
assertion in src/tests_sync/test_json_model.py lines 888 to 905 (note the
double blank after the email clause). -/
def memberExpectedClauses : String :=
  "$.pk AS pk TAG SEPARATOR | " ++
  "$.first_name AS first_name TAG SEPARATOR | CASESENSITIVE " ++
  "$.last_name AS last_name TAG SEPARATOR | " ++
  "$.email AS email TAG SEPARATOR |  " ++
  "$.age AS age NUMERIC " ++
  "$.bio AS bio TAG SEPARATOR | " ++
  "$.bio AS bio_fts TEXT " ++
  "$.address.pk AS address_pk TAG SEPARATOR | " ++
  "$.address.city AS address_city TAG SEPARATOR | " ++
  "$.address.postal_code AS address_postal_code TAG SEPARATOR | " ++
  "$.address.note.pk AS address_note_pk TAG SEPARATOR | " ++
  "$.address.note.description AS address_note_description TAG SEPARATOR | " ++
  "$.orders[*].pk AS orders_pk TAG SEPARATOR | " ++
  "$.orders[*].items[*].pk AS orders_items_pk TAG SEPARATOR | " ++
  "$.orders[*].items[*].name AS orders_items_name TAG SEPARATOR |"

/-- The HashDocument.tags field of src/tests_sync/test_tag_separator.py,
with the custom separator. -/
def hashTagsField : FieldDescriptor :=
  { fname := "tags", fpath := "tags", kind := .tag, separator := ';' }

set_option maxRecDepth 100000 in
/-- C7: the schema builder emits exactly one clause per descriptor keyed by
its full path, in declaration order with the primary key first; every TAG
clause declares SEPARATOR followed by its separator character even when it
is the default; every full-text field carries a second TEXT clause whose
alias is suffixed _fts; on the Member descriptor table the output is exactly
the schema string asserted by test_schema. -/
theorem c7_schema_builder (kp : String) :
    redisearchSchema ("JSON") kp memberSchemaTable
      = "ON JSON PREFIX 1 " ++ kp ++ " SCHEMA " ++ memberExpectedClauses ∧
    (memberSchemaTable.map (fun f => schemaClause f)).length = memberSchemaTable.length ∧
    memberSchemaTable.head? = some pkField ∧
    (∀ f : FieldDescriptor, f.kind = .tag → ∃ rest : String,
      schemaClause f
        = f.fpath ++ " AS " ++ f.fname ++ " TAG SEPARATOR " ++ charStr f.separator ++ rest) ∧
    (∀ f : FieldDescriptor, f.kind = .tag → f.fullText = true → f.unionNone = false →
      f.caseSensitive = false →
      schemaClause f
        = f.fpath ++ " AS " ++ f.fname ++ " TAG SEPARATOR " ++ charStr f.separator ++
          (" " ++ f.fpath ++ " AS " ++ f.fname ++ "_fts TEXT")) := by
  refine ⟨rfl, rfl, rfl, ?_, ?_⟩
  · intro f hk
    cases hcs : f.caseSensitive <;> cases hft : f.fullText <;> cases hun : f.unionNone
    · exact ⟨"", by simp [schemaClause, hk, hcs, hft, hun]⟩
    · exact ⟨" ", by simp [schemaClause, hk, hcs, hft, hun, String.append_assoc]⟩
    · exact ⟨" " ++ f.fpath ++ " AS " ++ f.fname ++ "_fts TEXT",
        by simp [schemaClause, hk, hcs, hft, hun, String.append_assoc]⟩
    · exact ⟨" " ++ f.fpath ++ " AS " ++ f.fname ++ "_fts TEXT ",
        by simp [schemaClause, hk, hcs, hft, hun, String.append_assoc]⟩
    · exact ⟨" CASESENSITIVE", by simp [schemaClause, hk, hcs, hft, hun, String.append_assoc]⟩
    · exact ⟨" CASESENSITIVE ", by simp [schemaClause, hk, hcs, hft, hun, String.append_assoc]⟩
    · exact ⟨" CASESENSITIVE " ++ f.fpath ++ " AS " ++ f.fname ++ "_fts TEXT",
        by simp [schemaClause, hk, hcs, hft, hun, String.append_assoc]⟩
    · exact ⟨" CASESENSITIVE " ++ f.fpath ++ " AS " ++ f.fname ++ "_fts TEXT ",
        by simp [schemaClause, hk, hcs, hft, hun, String.append_assoc]⟩
  · intro f hk hft hun hcs
    simp only [schemaClause, hk, hft, hun, hcs]
    simp [String.append_assoc]

theorem c7_schema_builder_witness :
    emailField.kind = IndexKind.tag ∧
    (∃ rest : String, schemaClause emailField
      = emailField.fpath ++ " AS " ++ emailField.fname ++ " TAG SEPARATOR " ++
        charStr emailField.separator ++ rest) ∧
    hashTagsField.kind = IndexKind.tag ∧
    (∃ rest : String, schemaClause hashTagsField
      = "tags AS tags TAG SEPARATOR ;" ++ rest) ∧
    schemaClause bioField
      = bioField.fpath ++ " AS " ++ bioField.fname ++ " TAG SEPARATOR " ++
        charStr bioField.separator ++
        (" " ++ bioField.fpath ++ " AS " ++ bioField.fname ++ "_fts TEXT") := by
  refine ⟨rfl, (c7_schema_builder ("p")).2.2.2.1 emailField rfl, rfl, ?_, ?_⟩
  · obtain ⟨rest, hr⟩ := (c7_schema_builder ("p")).2.2.2.1 hashTagsField rfl
    exact ⟨rest, hr⟩
  · exact (c7_schema_builder ("p")).2.2.2.2 bioField rfl rfl rfl rfl

/-! ## C8: GEO queries against unset Optional coordinates -/

/-- The Location.coordinates field of
src/tests_sync/test_json_model.py, test_does_not_return_coordinates_if_location_is_none. -/
def coordinatesField : FieldDescriptor :=
  { fname := "coordinates", fpath := "$.coordinates", kind := .geo }

/-- A saved Location instance whose Optional coordinates were None. -/
def locationNoneDoc : Doc := [(("coordinates"), FieldValue.geo none)]

/-- C8: a document whose Optional GEO field was unset (None) at storage time
never matches any GEO radius query, whatever the center and radius; a query
over only such documents returns no rows, so first() raises NotFoundError. -/
theorem c8_geo_none_never_matches (store : List Doc) (d : Doc)
    (lon lat radius : Int) :
    lookupField d ("coordinates") = some (FieldValue.geo none) →
      (d ∉ findResults store (.comp coordinatesField .eq (.geoF lon lat radius)) ∧
       findResults [d] (.comp coordinatesField .eq (.geoF lon lat radius)) = [] ∧
       firstResult (findResults [d] (.comp coordinatesField .eq (.geoF lon lat radius)))
         = .error .notFound) := by
  intro h
  have hm : evalComp d coordinatesField .eq (.geoF lon lat radius) = false := by
    have hc : coordinatesField.fname = "coordinates" := rfl
    rw [evalComp, geoMatch, hc, h]
  refine ⟨?_, ?_, ?_⟩
  · intro hmem
    rw [findResults, List.mem_filter] at hmem
    rw [evalDoc] at hmem
    rw [hm] at hmem
    exact absurd hmem.2 (by simp)
  · rw [findResults]
    simp [evalDoc, hm]
  · rw [findResults]
    simp only [List.filter, evalDoc, hm]
    rfl

theorem c8_geo_none_never_matches_witness :
    lookupField locationNoneDoc ("coordinates") = some (FieldValue.geo none) ∧
    (locationNoneDoc ∉
      findResults [locationNoneDoc] (.comp coordinatesField .eq (.geoF 0 0 1)) ∧
     findResults [locationNoneDoc] (.comp coordinatesField .eq (.geoF 0 0 1)) = [] ∧
     firstResult (findResults [locationNoneDoc]
       (.comp coordinatesField .eq (.geoF 0 0 1))) = .error .notFound) :=
  ⟨by decide, c8_geo_none_never_matches [locationNoneDoc] locationNoneDoc 0 0 1 (by decide)⟩

/-- C9: a fresh Query has an empty result cache and is unexecuted; the first
execution issues one store round-trip and populates the ordered cache; the
executed flag moves one way (re-execution does nothing and issues no
round-trip); once executed, access by index returns the cached instance with
zero store round-trips and never invalidates the cache; a first access by
index on a fresh Query populates the cache with that one round-trip. -/
theorem c9_query_cache (e : Expression) (s : Option String) (store : List Doc)
    (i : Nat) :
    (mkFindQuery e s).modelCache = [] ∧
    (mkFindQuery e s).executed = false ∧
    (executeQuery store (mkFindQuery e s)).1.executed = true ∧
    (executeQuery store (mkFindQuery e s)).1.modelCache
      = queryRows store (mkFindQuery e s) ∧
    (executeQuery store (mkFindQuery e s)).2 = 1 ∧
    executeQuery store ((executeQuery store (mkFindQuery e s)).1)
      = ((executeQuery store (mkFindQuery e s)).1, 0) ∧
    getItem store ((executeQuery store (mkFindQuery e s)).1) i
      = ((executeQuery store (mkFindQuery e s)).1,
         ((executeQuery store (mkFindQuery e s)).1.modelCache).get? i, 0) ∧
    getItem store (mkFindQuery e s) i
      = ((executeQuery store (mkFindQuery e s)).1,
         (queryRows store (mkFindQuery e s)).get? i, 1) := by
  refine ⟨rfl, rfl, ?_, ?_, ?_, ?_, ?_, ?_⟩ <;>
    simp [mkFindQuery, executeQuery, getItem, queryRows]

end RedisOM
